import Mathlib

set_option maxRecDepth 40000

/-!
Verification of the lead-generation tool (`final.py`) against its
specification.

The file shallowly embeds the pure core of `final.py`:

* `parse_lead_data` with its three tiers: `json.loads` (modelled by
  `jsonLoads`), `pandas.read_csv(.., sep=None, engine='python')`
  (modelled by `read_csv`, built on a model `sniffDelimiter` of
  `csv.Sniffer`), and the line fallback (`lineFallback`);
* `process_leads` (the scoring-prompt builder), whose literal text is
  transcribed from the source;
* `get_openai_response` and `generate_personalized_emails`, with the
  remote OpenAI call abstracted as a `Transport` argument;
* `json.dumps(.., indent=2)` (modelled by `jsonDumps`).

Python values that can flow through these functions are modelled by
`PyVal`. Python `float` is modelled as an exact decimal rational
(`vFloat : Rat`), with the IEEE-754 rounding of extreme literals out of
scope; `float('nan')` is `vNan`, the infinities are `vInf`.
-/

/-- Model of the Python values produced by `json.loads` and
`DataFrame.to_dict('records')`: `None`, `bool`, `int`, `float`
(as an exact decimal rational; `nan` and the infinities get their own
constructors), `str`, `list` and `dict` (a `dict` is an insertion-ordered
association list with distinct keys, as built by `dictInsert`). -/
inductive PyVal : Type where
  | vNone : PyVal
  | vBool (b : Bool) : PyVal
  | vInt (n : Int) : PyVal
  | vFloat (q : Rat) : PyVal
  | vNan : PyVal
  | vInf (neg : Bool) : PyVal
  | vStr (s : String) : PyVal
  | vList (xs : List PyVal) : PyVal
  | vDict (fields : List (String × PyVal)) : PyVal

/-- `True` exactly on Python `list` values (`isinstance(data, list)`). -/
def isListB : PyVal → Bool
  | .vList _ => true
  | _ => false

/-- `True` exactly on Python `dict` values (mappings). -/
def isDictB : PyVal → Bool
  | .vDict _ => true
  | _ => false

/-- The opening-brace character. -/
def lbrace : Char := Char.ofNat 123

/-- The closing-brace character. -/
def rbrace : Char := Char.ofNat 125

/-- The whitespace characters recognised by Python's JSON scanner
(space, tab, LF, CR); also used as the model of `str.strip`
(which additionally strips `\x0b`, `\x0c` and Unicode spaces — those
are out of scope). -/
def isWsChar (c : Char) : Bool :=
  c = ' ' || c = '\t' || c = '\n' || c = '\r'

/-- Drop leading JSON whitespace, as the `[ \t\n\r]*` match in
`json.decoder`. -/
def skipWs (cs : List Char) : List Char := cs.dropWhile isWsChar

/-- Model of Python `str.split(sep)` for a one-character separator,
on explicit character lists: `"".split(c) = [""]`,
`"a,".split(",") = ["a", ""]`. -/
def splitOnChar (sep : Char) : List Char → List (List Char)
  | [] => [[]]
  | c :: cs =>
    match splitOnChar sep cs with
    | [] => [[]]
    | r :: rs => if c = sep then [] :: r :: rs else (c :: r) :: rs

/-- Model of Python `str.strip()` restricted to the four ASCII
whitespace characters of `isWsChar`. -/
def trimChars (l : List Char) : List Char :=
  ((l.dropWhile isWsChar).reverse.dropWhile isWsChar).reverse

/-- Value of a (non-empty) decimal digit string. -/
def digitsToNat (ds : List Char) : Nat :=
  ds.foldl (fun a c => 10 * a + (c.toNat - 48)) 0

/-- Python `dict` insertion `d[k] = v`: an existing key keeps its
position and gets the new value, a new key is appended. -/
def dictInsert (fs : List (String × PyVal)) (k : String) (v : PyVal) :
    List (String × PyVal) :=
  if fs.any (fun p => p.1 = k) then
    fs.map (fun p => if p.1 = k then (k, v) else p)
  else fs ++ [(k, v)]

/-- Value of a hexadecimal digit, accepting both cases, as in the
`\uXXXX` escapes of `json.loads`. -/
def hexVal (c : Char) : Option Nat :=
  if '0' ≤ c ∧ c ≤ '9' then some (c.toNat - 48)
  else if 'a' ≤ c ∧ c ≤ 'f' then some (c.toNat - 87)
  else if 'A' ≤ c ∧ c ≤ 'F' then some (c.toNat - 55)
  else none

/-- Parse exactly four hexadecimal digits. -/
def parse4Hex : List Char → Option (Nat × List Char)
  | a :: b :: c :: d :: rest => do
    let x ← hexVal a
    let y ← hexVal b
    let z ← hexVal c
    let w ← hexVal d
    pure (x * 4096 + y * 256 + z * 16 + w, rest)
  | _ => none

/-- Model of `json.decoder.py_scanstring` (strict mode), scanning the
characters after the opening quote: unescaped control characters and
invalid escapes are errors, `\uXXXX` surrogate pairs are combined.  A
lone surrogate — which Python keeps as an unpaired code unit, a value a
Lean `Char` cannot hold — is replaced by U+FFFD. -/
def parseJStringAux : Nat → List Char → List Char → Option (String × List Char)
  | 0, _, _ => none
  | f + 1, acc, cs =>
    match cs with
    | [] => none
    | c :: rest =>
      if c = '"' then some (acc.reverse.asString, rest)
      else if c = '\\' then
        match rest with
        | [] => none
        | e :: rest2 =>
          if e = '"' then parseJStringAux f ('"' :: acc) rest2
          else if e = '\\' then parseJStringAux f ('\\' :: acc) rest2
          else if e = '/' then parseJStringAux f ('/' :: acc) rest2
          else if e = 'b' then parseJStringAux f (Char.ofNat 8 :: acc) rest2
          else if e = 'f' then parseJStringAux f (Char.ofNat 12 :: acc) rest2
          else if e = 'n' then parseJStringAux f ('\n' :: acc) rest2
          else if e = 'r' then parseJStringAux f ('\r' :: acc) rest2
          else if e = 't' then parseJStringAux f ('\t' :: acc) rest2
          else if e = 'u' then
            match parse4Hex rest2 with
            | none => none
            | some (n, rest3) =>
              if 55296 ≤ n ∧ n ≤ 56319 then
                match rest3 with
                | '\\' :: u :: rest4 =>
                  if u = 'u' then
                    match parse4Hex rest4 with
                    | some (n2, rest5) =>
                      if 56320 ≤ n2 ∧ n2 ≤ 57343 then
                        parseJStringAux f
                          (Char.ofNat (65536 + (n - 55296) * 1024 + (n2 - 56320)) :: acc) rest5
                      else parseJStringAux f (Char.ofNat 65533 :: acc) rest3
                    | none => parseJStringAux f (Char.ofNat 65533 :: acc) rest3
                  else parseJStringAux f (Char.ofNat 65533 :: acc) rest3
                | _ => parseJStringAux f (Char.ofNat 65533 :: acc) rest3
              else if 56320 ≤ n ∧ n ≤ 57343 then
                parseJStringAux f (Char.ofNat 65533 :: acc) rest3
              else parseJStringAux f (Char.ofNat n :: acc) rest3
          else none
      else if c.toNat < 32 then none
      else parseJStringAux f (c :: acc) rest

/-- Model of the `NUMBER_RE` match of `json.decoder`:
`(-?(?:0|[1-9]\d*))(\.\d+)?([eE][-+]?\d+)?`.  A match without fraction
and exponent is an `int`, otherwise a `float` (kept exact as a
rational). -/
def parseNumber (cs : List Char) : Option (PyVal × List Char) :=
  let sgn : Bool × List Char :=
    match cs with
    | '-' :: r => (true, r)
    | _ => (false, cs)
  let neg := sgn.1
  let cs1 := sgn.2
  match cs1 with
  | [] => none
  | c :: _ =>
    if ¬ c.isDigit then none
    else
      let ipr : List Char × List Char :=
        if c = '0' then (['0'], cs1.tail)
        else (cs1.takeWhile Char.isDigit, cs1.dropWhile Char.isDigit)
      let ip := ipr.1
      let r1 := ipr.2
      let fpr : List Char × List Char :=
        match r1 with
        | '.' :: t =>
          let ds := t.takeWhile Char.isDigit
          if ds = [] then ([], r1) else (ds, t.dropWhile Char.isDigit)
        | _ => ([], r1)
      let fp := fpr.1
      let r2 := fpr.2
      let ex : Bool × Bool × List Char × List Char :=
        match r2 with
        | e :: t =>
          if e = 'e' ∨ e = 'E' then
            let sg2 : Bool × List Char :=
              match t with
              | '-' :: u => (true, u)
              | '+' :: u => (false, u)
              | _ => (false, t)
            let ds := sg2.2.takeWhile Char.isDigit
            if ds = [] then (false, false, [], r2)
            else (true, sg2.1, ds, sg2.2.dropWhile Char.isDigit)
          else (false, false, [], r2)
        | [] => (false, false, [], r2)
      let hasExp := ex.1
      let eneg := ex.2.1
      let ed := ex.2.2.1
      let r3 := ex.2.2.2
      if fp = [] ∧ ¬ hasExp then
        some (.vInt (if neg then -(digitsToNat ip : Int) else (digitsToNat ip : Int)), r2)
      else
        let mant : Int := (digitsToNat (ip ++ fp) : Int)
        let mant := if neg then -mant else mant
        let e : Int :=
          (if eneg then -(digitsToNat ed : Int) else (digitsToNat ed : Int)) - (fp.length : Int)
        some (.vFloat ((mant : Rat) * (10 : Rat) ^ e), r3)

mutual

/-- Model of the value scanner of `json.loads` (fuelled; the fuel used
by `jsonLoads` is ample for every input).  Order and whitespace
handling follow `json.scanner.py_make_scanner`: the constants, then
strings, arrays, objects, and numbers. -/
def parseValue : Nat → List Char → Option (PyVal × List Char)
  | 0, _ => none
  | f + 1, cs =>
    if cs.take 4 = "null".data then some (.vNone, cs.drop 4)
    else if cs.take 4 = "true".data then some (.vBool true, cs.drop 4)
    else if cs.take 5 = "false".data then some (.vBool false, cs.drop 5)
    else if cs.take 3 = "NaN".data then some (.vNan, cs.drop 3)
    else if cs.take 8 = "Infinity".data then some (.vInf false, cs.drop 8)
    else if cs.take 9 = "-Infinity".data then some (.vInf true, cs.drop 9)
    else
      match cs with
      | [] => none
      | c :: rest =>
        if c = '"' then
          (parseJStringAux (f + 1) [] rest).map (fun p => (PyVal.vStr p.1, p.2))
        else if c = '[' then
          match skipWs rest with
          | ']' :: r2 => some (.vList [], r2)
          | cs2 => parseArrayLoop f cs2 []
        else if c = lbrace then
          match skipWs rest with
          | [] => none
          | r :: r2 =>
            if r = rbrace then some (.vDict [], r2)
            else parseObjLoop f (r :: r2) []
        else parseNumber cs

/-- The element loop of `JSONArray`: value, then `]` to finish or `,`
(with whitespace skipping) to continue. -/
def parseArrayLoop : Nat → List Char → List PyVal → Option (PyVal × List Char)
  | 0, _, _ => none
  | f + 1, cs, acc =>
    match parseValue f cs with
    | none => none
    | some (v, rest) =>
      match skipWs rest with
      | ']' :: r2 => some (.vList (acc ++ [v]), r2)
      | ',' :: r2 => parseArrayLoop f (skipWs r2) (acc ++ [v])
      | _ => none

/-- The member loop of `JSONObject`: a string key, `:`, a value, then
`}` to finish or `,` to continue; members are entered with Python
`dict` semantics (`dictInsert`). -/
def parseObjLoop : Nat → List Char → List (String × PyVal) →
    Option (PyVal × List Char)
  | 0, _, _ => none
  | f + 1, cs, acc =>
    match cs with
    | '"' :: rest =>
      match parseJStringAux (f + 1) [] rest with
      | none => none
      | some (k, r1) =>
        match skipWs r1 with
        | ':' :: r2 =>
          match parseValue f (skipWs r2) with
          | none => none
          | some (v, r3) =>
            match skipWs r3 with
            | [] => none
            | r4 :: r5 =>
              if r4 = rbrace then some (.vDict (dictInsert acc k v), r5)
              else if r4 = ',' then parseObjLoop f (skipWs r5) (dictInsert acc k v)
              else none
        | _ => none
    | _ => none

end

/-- Model of `json.loads`: skip leading whitespace, scan one value,
require only whitespace after it ("Extra data" otherwise).  `none`
models every raising path of `json.loads`. -/
def jsonLoads (s : String) : Option PyVal :=
  match parseValue (2 * s.data.length + 16) (skipWs s.data) with
  | some (v, rest) => if skipWs rest = [] then some v else none
  | none => none

example : jsonLoads "42" = some (.vInt 42) := rfl
example : jsonLoads "[1, 2]" = some (.vList [.vInt 1, .vInt 2]) := rfl
example : jsonLoads "hello" = none := rfl
example : jsonLoads "" = none := rfl
example : jsonLoads " \n " = none := rfl
example : jsonLoads "01" = none := rfl
example : jsonLoads "\x7b\"a\": null, \"a\": true\x7d" =
    some (.vDict [("a", .vBool true)]) := rfl
example : jsonLoads "[\x7b\"name\":\"A\"\x7d,\x7b\"name\":\"B\"\x7d]" =
    some (.vList [.vDict [("name", .vStr "A")], .vDict [("name", .vStr "B")]]) :=
  rfl

/-- Two-space indentation at nesting depth `d`, as produced by
`json.dumps(.., indent=2)`. -/
def indentStr (d : Nat) : String := String.mk (List.replicate (2 * d) ' ')

/-- Lowercase hexadecimal digit. -/
def hexDigit (n : Nat) : Char :=
  if n < 10 then Char.ofNat (48 + n) else Char.ofNat (87 + n)

/-- Four lowercase hexadecimal digits, as in the `\uXXXX` escapes of
`json.dumps`. -/
def hex4 (n : Nat) : String :=
  String.mk [hexDigit (n / 4096 % 16), hexDigit (n / 256 % 16),
             hexDigit (n / 16 % 16), hexDigit (n % 16)]

/-- Per-character escaping of `json.encoder.py_encode_basestring_ascii`
(the default `ensure_ascii=True`): printable ASCII other than quote and
backslash is kept, everything else is escaped. -/
def escapeChar (c : Char) : String :=
  if c = '"' then "\\\""
  else if c = '\\' then "\\\\"
  else if c = '\n' then "\\n"
  else if c = '\r' then "\\r"
  else if c = '\t' then "\\t"
  else if c = Char.ofNat 8 then "\\b"
  else if c = Char.ofNat 12 then "\\f"
  else if 32 ≤ c.toNat ∧ c.toNat ≤ 126 then String.mk [c]
  else if c.toNat < 65536 then "\\u" ++ hex4 c.toNat
  else
    let n := c.toNat - 65536
    "\\u" ++ hex4 (55296 + n / 1024) ++ "\\u" ++ hex4 (56320 + n % 1024)

/-- JSON string literal for `s`, double-quoted and escaped. -/
def quoteJson (s : String) : String :=
  "\"" ++ String.join (s.data.map escapeChar) ++ "\""

/-- Decimal rendering of the rational model of a Python float, matching
`repr(float)` on values whose shortest repr is plain decimal (the
exponent notation Python switches to for very large or small magnitudes
is out of scope, as is binary-float rounding). -/
def floatRepr (q : Rat) : String :=
  match (List.range 400).find? (fun k => 10 ^ k % q.den = 0) with
  | none => toString q.num ++ "/" ++ toString q.den
  | some k =>
    let m : Int := q.num * 10 ^ k / q.den
    let sgn : String := if m < 0 then "-" else ""
    let a := m.natAbs
    if k = 0 then sgn ++ toString a ++ ".0"
    else
      let ip := a / 10 ^ k
      let fp := a % 10 ^ k
      let fpStr := toString fp
      let pad := String.mk (List.replicate (k - fpStr.length) '0')
      sgn ++ toString ip ++ "." ++ pad ++ fpStr

mutual

/-- Model of `json.dumps(v, indent=2)` at nesting depth `d`: with an
indent the item separator is `",\n" + indent` and the key separator is
`": "`; empty containers print without newlines. -/
def dumpsVal : Nat → PyVal → String
  | _, .vNone => "null"
  | _, .vBool b => if b then "true" else "false"
  | _, .vInt n => toString n
  | _, .vNan => "NaN"
  | _, .vInf neg => if neg then "-Infinity" else "Infinity"
  | _, .vFloat q => floatRepr q
  | _, .vStr s => quoteJson s
  | d, .vList xs =>
    match xs with
    | [] => "[]"
    | x :: t =>
      "[\n" ++ String.intercalate ",\n" (dumpsItems (d + 1) (x :: t)) ++
        "\n" ++ indentStr d ++ "]"
  | d, .vDict fs =>
    match fs with
    | [] => "\x7b\x7d"
    | f :: t =>
      "\x7b\n" ++ String.intercalate ",\n" (dumpsFields (d + 1) (f :: t)) ++
        "\n" ++ indentStr d ++ "\x7d"

/-- Rendered list items, each on its own indented line. -/
def dumpsItems : Nat → List PyVal → List String
  | _, [] => []
  | d, x :: xs => (indentStr d ++ dumpsVal d x) :: dumpsItems d xs

/-- Rendered dict members, each on its own indented line. -/
def dumpsFields : Nat → List (String × PyVal) → List String
  | _, [] => []
  | d, (k, v) :: fs =>
    (indentStr d ++ quoteJson k ++ ": " ++ dumpsVal d v) :: dumpsFields d fs

end

/-- Model of `json.dumps(leads_data, indent=2)` as applied by
`process_leads` and `generate_personalized_emails` to a lead list. -/
def jsonDumps (leads : List PyVal) : String := dumpsVal 0 (.vList leads)

example : jsonDumps [] = "[]" := rfl
example : jsonDumps [.vDict [("name", .vStr "A")], .vDict [("name", .vStr "B")]] =
    "[\n  \x7b\n    \"name\": \"A\"\n  \x7d,\n  \x7b\n    \"name\": \"B\"\n  \x7d\n]" := rfl
example : jsonDumps [.vInt 3, .vNan, .vNone] = "[\n  3,\n  NaN,\n  null\n]" := rfl

/-- The `preferred` delimiter list of `csv.Sniffer`. -/
def preferredDelims : List Char := [',', '\t', ';', ' ', ':']

/-- Number of occurrences of `c` in `l` (Python `str.count`). -/
def countCh (l : List Char) (c : Char) : Nat := (l.filter (fun x => x = c)).length

/-- Model of `csv.Sniffer().sniff(line).delimiter` for the sample pandas
passes: the first physical line of the input.  With a single sample line
the frequency analysis of `_guess_delimiter` makes every distinct 7-bit
ASCII character of the line a candidate; a sole candidate wins, else the
first `preferred` delimiter present, else the candidate with the highest
(count, code-point) pair — the `items.sort(); items[-1]` step.  The
quote-pattern stage `_guess_quote_and_delimiter` is bypassed, so samples
in which a quoted-field-adjacent-to-delimiter pattern occurs are out of
scope. -/
def sniffDelimiter (line : List Char) : Option Char :=
  match (splitOnChar '\n' line).filter (fun r => r ≠ []) with
  | [] => none
  | l :: _ =>
    match ((l.filter (fun c => c.toNat < 127)).dedup : List Char) with
    | [] => none
    | [c] => some c
    | c0 :: c1 :: cr =>
      match preferredDelims.find? (fun d => (c0 :: c1 :: cr).contains d) with
      | some d => some d
      | none =>
        some ((c0 :: c1 :: cr).foldl
          (fun best c =>
            if countCh l c > countCh l best ∨
               (countCh l c = countCh l best ∧ best.toNat < c.toNat)
            then c else best) c0)

example : sniffDelimiter "hello".data = some 'l' := rfl
example : sniffDelimiter "hello\n".data = some 'l' := rfl
example : sniffDelimiter "name,age".data = some ',' := rfl
example : sniffDelimiter " ".data = some ' ' := rfl
example : sniffDelimiter "".data = none := rfl
example : sniffDelimiter "a b".data = some ' ' := rfl
example : sniffDelimiter "ab;cd ef".data = some ';' := rfl
example : sniffDelimiter "xyzzy".data = some 'z' := rfl
example : sniffDelimiter "abab".data = some 'b' := rfl

/-- The rows `csv.reader` produces from the whole input with delimiter
`d`: one row per line (a trailing newline does not open a last empty
row; an empty line gives an empty row).  Quoting is not modelled, so
inputs whose fields contain the `"` quote character are out of scope. -/
def csvRows (d : Char) (cs : List Char) : List (List (List Char)) :=
  let phys := splitOnChar '\n' cs
  let phys :=
    match phys.getLast? with
    | some [] => phys.dropLast
    | _ => phys
  phys.map (fun l => if l = [] then [] else splitOnChar d l)

/-- The blank-row filter `PythonParser._remove_empty_lines` (applied
with the default `skip_blank_lines=True`): a row is kept unless it has
no fields or a single all-whitespace field. -/
def keepRow : List (List Char) → Bool
  | [] => false
  | [f] => trimChars f ≠ []
  | _ :: _ :: _ => true

/-- Header-cell naming of `_infer_columns`: an empty header cell at
position `i` becomes `Unnamed: i`. -/
def renameUnnamed (hdr : List (List Char)) : List String :=
  hdr.enum.map (fun p => if p.2 = [] then "Unnamed: " ++ toString p.1 else p.2.asString)

/-- Count lookup in the association-list model of the
`defaultdict(int)` used for duplicate-column mangling. -/
def lookupCount (m : List (String × Nat)) (k : String) : Nat :=
  (((m.find? (fun p => p.1 = k)).map Prod.snd).getD 0)

/-- Count update for `lookupCount`. -/
def setCount (m : List (String × Nat)) (k : String) (v : Nat) :
    List (String × Nat) :=
  if m.any (fun p => p.1 = k) then m.map (fun p => if p.1 = k then (k, v) else p)
  else m ++ [(k, v)]

/-- The inner `while cur_count > 0` loop of pandas' duplicate-column
mangling: append `.{count}` until the name is fresh.  The fuel is ample:
the loop moves through names with positive counts, of which there are
at most as many as columns already processed. -/
def mangleLoop : Nat → List (String × Nat) → String → String × List (String × Nat)
  | 0, m, col => (col, m)
  | f + 1, m, col =>
    let cur := lookupCount m col
    if cur > 0 then
      mangleLoop f (setCount m col (cur + 1)) (col ++ "." ++ toString cur)
    else (col, m)

/-- Duplicate-column mangling of `_infer_columns`: a repeated header
name gets `.1`, `.2`, … suffixes, avoiding collisions with existing
names. -/
def mangleDups (names : List String) : List String :=
  (names.foldl
    (fun acc col =>
      let r := mangleLoop (names.length + 1) acc.2 col
      (acc.1 ++ [r.1], setCount r.2 r.1 (lookupCount r.2 r.1 + 1)))
    (([], []) : List String × List (String × Nat))).1

example : mangleDups ["a", "b", "a", "a"] = ["a", "b", "a.1", "a.2"] := rfl
example : mangleDups ["a", "a.1", "a"] = ["a", "a.1", "a.1.1"] := rfl

/-- The default `na_values` strings of `read_csv`. -/
def naStrings : List String :=
  ["", "#N/A", "#N/A N/A", "#NA", "-1.#IND", "-1.#QNAN", "-NaN", "-nan",
   "1.#IND", "1.#QNAN", "<NA>", "N/A", "NA", "NULL", "NaN", "None",
   "n/a", "nan", "null"]

/-- Is a cell NA?  `none` is a cell absent from a short row (pandas pads
with `NaN`); a present cell is NA when its text is a default NA string. -/
def isNaCell : Option (List Char) → Bool
  | none => true
  | some f => naStrings.contains f.asString

/-- A string `maybe_convert_numeric` reads as an integer: an optional
sign followed by digits. -/
def isIntLit (f : List Char) : Bool :=
  let t := match f with
    | '+' :: r => r
    | '-' :: r => r
    | _ => f
  t ≠ [] && t.all Char.isDigit

/-- Integer value of an `isIntLit` string. -/
def intLitVal (f : List Char) : Int :=
  match f with
  | '+' :: r => (digitsToNat r : Int)
  | '-' :: r => -(digitsToNat r : Int)
  | _ => (digitsToNat f : Int)

/-- A numeric literal accepted by float conversion
(`[+-]? (digits ['.' digits*] | '.' digits) [eE [+-] digits]`), with its
exact decimal value; `inf`-like spellings are out of scope.  Returns
`none` when the string is not such a literal. -/
def parseFloatLit (f : List Char) : Option Rat :=
  let sgn : Bool × List Char :=
    match f with
    | '-' :: r => (true, r)
    | '+' :: r => (false, r)
    | _ => (false, f)
  let ip := sgn.2.takeWhile Char.isDigit
  let r1 := sgn.2.dropWhile Char.isDigit
  let fpr : Option (List Char × List Char) :=
    match r1 with
    | '.' :: t => some (t.takeWhile Char.isDigit, t.dropWhile Char.isDigit)
    | _ => some ([], r1)
  match fpr with
  | none => none
  | some (fp, r2) =>
    if ip = [] ∧ fp = [] then none
    else
      let exr : Option (Int × List Char) :=
        match r2 with
        | e :: t =>
          if e = 'e' ∨ e = 'E' then
            let sg2 : Bool × List Char :=
              match t with
              | '-' :: u => (true, u)
              | '+' :: u => (false, u)
              | _ => (false, t)
            let ds := sg2.2.takeWhile Char.isDigit
            if ds = [] then none
            else some ((if sg2.1 then -(digitsToNat ds : Int) else (digitsToNat ds : Int)),
                       sg2.2.dropWhile Char.isDigit)
          else some (0, r2)
        | [] => some (0, r2)
      match exr with
      | none => none
      | some (e, r3) =>
        if r3 ≠ [] then none
        else
          let mant : Int := (digitsToNat (ip ++ fp) : Int)
          let mant := if sgn.1 then -mant else mant
          some ((mant : Rat) * (10 : Rat) ^ (e - (fp.length : Int)))

/-- The `true_values` spellings recognised by pandas' bool conversion. -/
def trueStrings : List String := ["True", "TRUE", "true"]

/-- The `false_values` spellings. -/
def falseStrings : List String := ["False", "FALSE", "false"]

/-- The dtype a column gets from the python parser's conversion
(`_convert_to_ndarrays` / `maybe_convert_numeric`): all-NA → float NaN;
all integral and no NA → int64; all numeric → float64; all booleans →
bool; otherwise object (strings, NA cells as NaN). -/
inductive ColKind : Type where
  | allNa : ColKind
  | colInt : ColKind
  | colFloat : ColKind
  | colBool : ColKind
  | colObj : ColKind

/-- Classify one column's cells. -/
def colKind (col : List (Option (List Char))) : ColKind :=
  let nonNa := (col.filter (fun c => ¬ isNaCell c)).map (fun c => c.getD [])
  if nonNa.isEmpty then .allNa
  else if nonNa.all isIntLit then
    (if col.all (fun c => ¬ isNaCell c) then .colInt else .colFloat)
  else if nonNa.all (fun f => (parseFloatLit f).isSome) then .colFloat
  else if nonNa.all (fun f => trueStrings.contains f.asString ||
                              falseStrings.contains f.asString) then .colBool
  else .colObj

/-- Convert one cell under its column's kind. -/
def convertCell (k : ColKind) (c : Option (List Char)) : PyVal :=
  if isNaCell c then .vNan
  else
    let f := c.getD []
    match k with
    | .allNa => .vNan
    | .colInt => .vInt (intLitVal f)
    | .colFloat => .vFloat ((parseFloatLit f).getD 0)
    | .colBool => .vBool (trueStrings.contains f.asString)
    | .colObj => .vStr f.asString

/-- Align a data row with the `W` named columns after `k` implicit index
fields: pad short rows with absent (`NaN`) cells at the end, drop the
`k` index fields.  The result always has exactly `W` cells (rows longer
than `W + k` never reach this point — `read_csv` has already raised). -/
def padRow (W k : Nat) (r : List (List Char)) : List (Option (List Char)) :=
  (((r.map some).take (W + k)) ++ List.replicate (W + k - r.length) none).drop k

/-- The records `DataFrame.to_dict('records')` yields: one association
list per data row, keyed by the processed header in column order, with
cells converted per column. -/
def csvRecords (hdr : List String) (k : Nat) (dataRows : List (List (List Char))) :
    List (List (String × PyVal)) :=
  let W := hdr.length
  let padded := dataRows.map (padRow W k)
  let kinds := (List.range W).map (fun j => colKind (padded.map (fun r => r.getD j none)))
  padded.map (fun r => hdr.zip ((r.zip kinds).map (fun p => convertCell p.2 p.1)))

/-- Model of pandas `_get_index_name` (python engine, `index_col=None`):
Case 0 first — when the second data row is exactly as wide as the first
data row plus the header, the first data row is consumed as a row of
index names and its width many index columns are assumed (the parser
does not raise); otherwise Case 1 — implicit index columns when the
first data row is wider than the header.  Returns the index width and
the effective data rows. -/
def indexSplit (W : Nat) (dataRows : List (List (List Char))) :
    Nat × List (List (List Char)) :=
  match dataRows with
  | [] => (0, [])
  | r0 :: rest =>
    match rest with
    | r1 :: _ =>
      if r1.length = r0.length + W then (r0.length, rest)
      else (r0.length - W, dataRows)
    | [] => (r0.length - W, dataRows)

/-- Model of
`pd.read_csv(io.StringIO(input_text), sep=None, engine='python').to_dict('records')`
(all other arguments default), returning the processed column names and
the records, or `none` for every raising path: delimiter sniffing on the
first physical line; blank-row removal; the first kept row is the
header; then the `_get_index_name` decision (`indexSplit`): an
index-name row (Case 0) or implicit index columns when the first data
row is longer than the header (Case 1); a `ParserError` when any
effective data row exceeds header width plus index width. -/
def read_csv (s : String) :
    Option (List String × List (List (String × PyVal))) :=
  match sniffDelimiter (s.data.takeWhile (fun c => c ≠ '\n')) with
  | none => none
  | some d =>
    match (csvRows d s.data).filter keepRow with
    | [] => none
    | hdrRaw :: dataRows =>
      let hdr := mangleDups (renameUnnamed hdrRaw)
      let k := (indexSplit hdr.length dataRows).1
      let rows := (indexSplit hdr.length dataRows).2
      if rows.any (fun r => hdr.length + k < r.length) then none
      else some (hdr, csvRecords hdr k rows)

example : read_csv "name,age\nA,30\nB,40" =
    some (["name", "age"],
      [[("name", .vStr "A"), ("age", .vInt 30)],
       [("name", .vStr "B"), ("age", .vInt 40)]]) := rfl
example : read_csv "hello\nworld" =
    some (["he", "Unnamed: 1", "o"],
      [[("he", .vStr "wor"), ("Unnamed: 1", .vStr "d"), ("o", .vNan)]]) := rfl
example : read_csv " \n " =
    some (["Unnamed: 0", "Unnamed: 1"],
      [[("Unnamed: 0", .vNan), ("Unnamed: 1", .vNan)]]) := rfl
example : read_csv " " = some (["Unnamed: 0", "Unnamed: 1"], []) := rfl
example : read_csv "" = none := rfl
example : read_csv "\n\n" = none := rfl
example : read_csv "a b\nc d\ne f g" = none := rfl
example : read_csv "a,b\n1,2,3" =
    some (["a", "b"], [[("a", .vInt 2), ("b", .vInt 3)]]) := rfl
example : read_csv "a,b\nx\n1,2,3" =
    some (["a", "b"], [[("a", .vInt 2), ("b", .vInt 3)]]) := rfl
example : read_csv " \n \n   " =
    some (["Unnamed: 0", "Unnamed: 1"],
      [[("Unnamed: 0", .vNan), ("Unnamed: 1", .vNan)]]) := rfl
example : read_csv "a,b\nx\n1,2,3\n4,5,6,7" = none := rfl

/-- The stripped non-empty lines of the fallback tier:
`[line.strip() for line in input_text.split('\n') if line.strip()]`. -/
def nonBlankLines (s : String) : List String :=
  (((splitOnChar '\n' s.data).map trimChars).filter (fun l => l ≠ [])).map
    List.asString

/-- The records of the line-fallback tier: `[{'input': line} for line in lines]`. -/
def lineFallback (s : String) : List PyVal :=
  (nonBlankLines s).map (fun l => PyVal.vDict [("input", PyVal.vStr l)])

/-- Model of `parse_lead_data(input_text)` of `final.py`: try
`json.loads` (a parsed list is returned as is, anything else is wrapped
in a one-element list); on failure try the pandas delimited-table read;
on failure return the line-fallback records. -/
def parse_lead_data (input_text : String) : List PyVal :=
  match jsonLoads input_text with
  | some (.vList xs) => xs
  | some v => [v]
  | none =>
    match read_csv input_text with
    | some pr => pr.2.map PyVal.vDict
    | none => lineFallback input_text

example : parse_lead_data "[\x7b\"name\":\"A\"\x7d,\x7b\"name\":\"B\"\x7d]" =
    [.vDict [("name", .vStr "A")], .vDict [("name", .vStr "B")]] := rfl
example : parse_lead_data "42" = [.vInt 42] := rfl
example : parse_lead_data "name,age\nA,30\nB,40" =
    [.vDict [("name", .vStr "A"), ("age", .vInt 30)],
     .vDict [("name", .vStr "B"), ("age", .vInt 40)]] := rfl
example : parse_lead_data "hello\nworld" =
    [.vDict [("he", .vStr "wor"), ("Unnamed: 1", .vStr "d"), ("o", .vNan)]] := rfl
example : parse_lead_data "a b\nc d\ne f g" =
    [.vDict [("input", .vStr "a b")], .vDict [("input", .vStr "c d")],
     .vDict [("input", .vStr "e f g")]] := rfl
example : parse_lead_data "" = [] := rfl
example : parse_lead_data " \n " =
    [.vDict [("Unnamed: 0", .vNan), ("Unnamed: 1", .vNan)]] := rfl
example : parse_lead_data " \n \n   " =
    [.vDict [("Unnamed: 0", .vNan), ("Unnamed: 1", .vNan)]] := rfl

/-- Chat message of the OpenAI API: a `{"role": .., "content": ..}`
pair. -/
structure ChatMessage : Type where
  role : String
  content : String

/-- The remote side of `client.chat.completions.create(model="gpt-4",
messages=.., temperature=0.7, max_tokens=4000)`, abstracted: given the
API key and the messages it either fails (any exception: bad
credential, network, rate limit, malformed response) or returns the
`message.content` of each choice (`None` content allowed). -/
abbrev Transport : Type :=
  String → List ChatMessage → Except String (List (Option String))

/-- `response.choices[0].message.content` under the enclosing
`try/except`: a transport error or an empty `choices` list (an
`IndexError` inside the `try`) yields Python `None`. -/
def extractContent (r : Except String (List (Option String))) : Option String :=
  match r with
  | .error _ => none
  | .ok [] => none
  | .ok (c :: _) => c

/-- Model of `get_openai_response(messages, api_key)`: the call's result,
paired with the final state of the (never mutated) `messages` argument. -/
def get_openai_response (transport : Transport) (messages : List ChatMessage)
    (api_key : String) : Option String × List ChatMessage :=
  (extractContent (transport api_key messages), messages)

/-- The fixed instruction phrase opening the user message of the email
builder. -/
def emailUserInstr : String := "Generate personalized emails for:\n"

/-- The two-message conversation built by
`generate_personalized_emails`. -/
def emailMessages (leads_data : List PyVal) (email_system_prompt : String) :
    List ChatMessage :=
  [⟨"system", email_system_prompt⟩,
   ⟨"user", emailUserInstr ++ jsonDumps leads_data⟩]

/-- Model of `generate_personalized_emails(leads_data, api_key,
email_system_prompt)`: build the two-message conversation and make the
guarded call. -/
def generate_personalized_emails (transport : Transport) (leads_data : List PyVal)
    (api_key : String) (email_system_prompt : String) : Option String :=
  extractContent (transport api_key (emailMessages leads_data email_system_prompt))

/-- Opening segment of the scoring prompt, up to the sentence mandating
descending-score order (text verbatim from the `process_leads`
f-string). -/
def promptA1 : String :=
  "\n    You are a marketing genius that works for online cohort-based course instructors. You are trained to find and score leads based on user engagement across various channels. Your task is to generate a lead scoring table that identifies high-potential candidates for the course. \n\nHere are the scoring criteria you should consider:  \n- Channel Presence: Max 50 points  \n- Professional Experience: Max 50 points  \n- Career Motivation: Max 30 points  \n- Geographic Relevance: Max 30 points  \n\nThe scoring breakdown is as follows:  \n- Cross-Channel Presence: 50 points  \n- Product Management/Tech Experience: 60 points  \n- Clear Career Goal Alignment: 40 points  \n- Location Relevance: 40 points  \n\nYou will analyze the provided lead data, calculate lead scores based on the scoring methodology, and generate a table with the specified output format. "

/-- The ordering instruction of the scoring prompt. -/
def orderingSentence : String :=
  "Ensure that the user with the highest lead score appears at the top of the table."

/-- Segment between the ordering instruction and the column header. -/
def promptA2 : String :=
  " For each lead, provide a clear rationale for their score. \n\nMake sure to output the information in a table format with the following columns:  \n"

/-- The seven column names mandated for the output table. -/
def scoreTableColumns : List String :=
  ["Full Name", "Preferred Name", "Email", "Lead Score", "Reason",
   "LinkedIn", "Motivation"]

/-- The literal markdown header row of the mandated output table. -/
def scoreHeaderLine : String :=
  "| Full Name | Preferred Name | Email | Lead Score | Reason | LinkedIn | Motivation |"

/-- Segment between the column header and the spliced lead count. -/
def promptA3 : String :=
  "\n\nIt is crucial that you process and include ALL leads from the input data. The current lead count is: "

/-- Segment between the lead count and the no-commentary instruction. -/
def promptB1 : String :=
  ". Ensure the following:  \n- Verify data completeness  \n- Ensure professional and ethical lead scoring  \n- No fabricated information  \n- Respect data privacy  \n\n"

/-- The instruction forbidding output beyond the table. -/
def noCommentarySentence : String :=
  "Your output should strictly adhere to the table format without any additional commentary or information."

/-- The blank line before the data block. -/
def promptB2 : String := "\n\n"

/-- The opening marker of the embedded data block. -/
def leadDataOpen : String := "<Lead Data>\n"

/-- The closing marker of the embedded data block. -/
def leadDataClose : String := "\n</Lead Data>"

/-- The final newline of the prompt. -/
def promptTail : String := "\n"

/-- Model of `process_leads(df)` of `final.py`, taking the record list
`df.to_dict("records")` as input: the prompt f-string with the lead
count and `json.dumps(leads_data, indent=2)` spliced in. -/
def process_leads (leads_data : List PyVal) : String :=
  promptA1 ++ orderingSentence ++ promptA2 ++ scoreHeaderLine ++ promptA3 ++
    toString leads_data.length ++ promptB1 ++ noCommentarySentence ++ promptB2 ++
    leadDataOpen ++ jsonDumps leads_data ++ leadDataClose ++ promptTail

example : scoreHeaderLine =
    "| " ++ String.intercalate " | " scoreTableColumns ++ " |" := rfl

example : process_leads [] =
    "\n    You are a marketing genius that works for online cohort-based course instructors. You are trained to find and score leads based on user engagement across various channels. Your task is to generate a lead scoring table that identifies high-potential candidates for the course. \n\nHere are the scoring criteria you should consider:  \n- Channel Presence: Max 50 points  \n- Professional Experience: Max 50 points  \n- Career Motivation: Max 30 points  \n- Geographic Relevance: Max 30 points  \n\nThe scoring breakdown is as follows:  \n- Cross-Channel Presence: 50 points  \n- Product Management/Tech Experience: 60 points  \n- Clear Career Goal Alignment: 40 points  \n- Location Relevance: 40 points  \n\nYou will analyze the provided lead data, calculate lead scores based on the scoring methodology, and generate a table with the specified output format. Ensure that the user with the highest lead score appears at the top of the table. For each lead, provide a clear rationale for their score. \n\nMake sure to output the information in a table format with the following columns:  \n| Full Name | Preferred Name | Email | Lead Score | Reason | LinkedIn | Motivation |\n\nIt is crucial that you process and include ALL leads from the input data. The current lead count is: 0. Ensure the following:  \n- Verify data completeness  \n- Ensure professional and ethical lead scoring  \n- No fabricated information  \n- Respect data privacy  \n\nYour output should strictly adhere to the table format without any additional commentary or information.\n\n<Lead Data>\n[]\n</Lead Data>\n" := rfl

/-- `seg` occurs verbatim as a contiguous segment of `s`. -/
def containsSeg (s seg : String) : Prop := ∃ a b : String, s = a ++ (seg ++ b)

theorem parseValue_nil (f : Nat) : parseValue f [] = none := by
  cases f with
  | zero => rfl
  | succ f => rfl

theorem allWs_jsonLoads (s : String) (h : ∀ c ∈ s.data, isWsChar c) :
    jsonLoads s = none := by
  have hd : skipWs s.data = [] := List.dropWhile_eq_nil_iff.mpr h
  simp [jsonLoads, hd, parseValue_nil]

theorem mem_splitOnChar {sep : Char} {xs l : List Char}
    (hl : l ∈ splitOnChar sep xs) : ∀ c ∈ l, c ∈ xs := by
  induction xs generalizing l with
  | nil =>
    simp only [splitOnChar, List.mem_singleton] at hl
    subst hl
    intro c hc
    cases hc
  | cons x xs ih =>
    intro c hc
    rw [splitOnChar] at hl
    split at hl
    · simp only [List.mem_singleton] at hl
      subst hl
      cases hc
    · rename_i r rs hsp
      split at hl
      · rcases List.mem_cons.mp hl with rfl | hl2
        · cases hc
        · exact List.mem_cons_of_mem x (ih (by rw [hsp]; exact hl2) c hc)
      · rcases List.mem_cons.mp hl with rfl | hl2
        · rcases List.mem_cons.mp hc with rfl | hc2
          · exact List.mem_cons_self ..
          · exact List.mem_cons_of_mem x
              (ih (by rw [hsp]; exact List.mem_cons_self ..) c hc2)
        · exact List.mem_cons_of_mem x
            (ih (by rw [hsp]; exact List.mem_cons_of_mem r hl2) c hc)

theorem trimChars_allWs {l : List Char} (h : ∀ c ∈ l, isWsChar c) :
    trimChars l = [] := by
  have h1 : l.dropWhile isWsChar = [] := List.dropWhile_eq_nil_iff.mpr h
  simp [trimChars, h1]

theorem allWs_nonBlankLines (s : String) (h : ∀ c ∈ s.data, isWsChar c) :
    nonBlankLines s = [] := by
  rw [nonBlankLines]
  have hf : (((splitOnChar '\n' s.data).map trimChars).filter (fun l => l ≠ [])) = [] := by
    rw [List.filter_eq_nil_iff]
    intro a ha
    rcases List.mem_map.mp ha with ⟨l, hl, rfl⟩
    simp only [ne_eq, decide_not, Bool.not_eq_true', decide_eq_false_iff_not,
      Decidable.not_not]
    exact trimChars_allWs (fun c hc => h c (mem_splitOnChar hl c hc))
  rw [hf]
  rfl

theorem allWs_lineFallback (s : String) (h : ∀ c ∈ s.data, isWsChar c) :
    lineFallback s = [] := by
  simp [lineFallback, allWs_nonBlankLines s h]

theorem padRow_length (W k : Nat) (r : List (List Char)) :
    (padRow W k r).length = W := by
  simp only [padRow, List.length_drop, List.length_append, List.length_take,
    List.length_map, List.length_replicate]
  omega

theorem csvRecords_shape (hdr : List String) (k : Nat)
    (rows : List (List (List Char))) :
    ∀ r ∈ csvRecords hdr k rows, r.length = hdr.length ∧ r.map Prod.fst = hdr := by
  intro r hr
  simp only [csvRecords, List.map_map, List.mem_map, Function.comp_apply] at hr
  obtain ⟨row, hrow, rfl⟩ := hr
  constructor
  · simp [List.length_zip, padRow_length]
  · apply List.map_fst_zip
    simp [List.length_zip, padRow_length]

/-- C1: for every raw text input, `parse_lead_data` returns a value
without raising: it tries the structured (JSON) tier, then the
delimited-table tier, then the line fallback, in that fixed order, and
never propagates the underlying parse exception of a failed tier —
every input lands in exactly one of the four total outcomes below. -/
theorem parse_lead_data_total_tier_order (s : String) :
    (∃ xs, jsonLoads s = some (PyVal.vList xs) ∧ parse_lead_data s = xs) ∨
    (∃ v, jsonLoads s = some v ∧ isListB v = false ∧ parse_lead_data s = [v]) ∨
    (jsonLoads s = none ∧
      ∃ hdr recs, read_csv s = some (hdr, recs) ∧
        parse_lead_data s = recs.map PyVal.vDict) ∨
    (jsonLoads s = none ∧ read_csv s = none ∧
      parse_lead_data s = lineFallback s) := by
  rcases hj : jsonLoads s with _ | v
  · rcases hc : read_csv s with _ | ⟨hdr, recs⟩
    · exact Or.inr (Or.inr (Or.inr ⟨rfl, rfl, by simp [parse_lead_data, hj, hc]⟩))
    · exact Or.inr (Or.inr (Or.inl
        ⟨rfl, hdr, recs, rfl, by simp [parse_lead_data, hj, hc]⟩))
  · cases v with
    | vList xs => exact Or.inl ⟨xs, rfl, by simp [parse_lead_data, hj]⟩
    | vNone => exact Or.inr (Or.inl ⟨_, rfl, rfl, by simp [parse_lead_data, hj]⟩)
    | vBool b => exact Or.inr (Or.inl ⟨_, rfl, rfl, by simp [parse_lead_data, hj]⟩)
    | vInt n => exact Or.inr (Or.inl ⟨_, rfl, rfl, by simp [parse_lead_data, hj]⟩)
    | vFloat q => exact Or.inr (Or.inl ⟨_, rfl, rfl, by simp [parse_lead_data, hj]⟩)
    | vNan => exact Or.inr (Or.inl ⟨_, rfl, rfl, by simp [parse_lead_data, hj]⟩)
    | vInf b => exact Or.inr (Or.inl ⟨_, rfl, rfl, by simp [parse_lead_data, hj]⟩)
    | vStr t => exact Or.inr (Or.inl ⟨_, rfl, rfl, by simp [parse_lead_data, hj]⟩)
    | vDict fs => exact Or.inr (Or.inl ⟨_, rfl, rfl, by simp [parse_lead_data, hj]⟩)

/-- C2: for every input text that `json.loads` reads as a list of
mappings, `parse_lead_data` returns exactly that list — same length,
same field content, same order. -/
theorem parse_lead_data_json_seq_roundtrip (s : String) (xs : List PyVal)
    (hj : jsonLoads s = some (PyVal.vList xs)) (_hm : xs.all isDictB = true) :
    parse_lead_data s = xs ∧ (parse_lead_data s).length = xs.length := by
  have h : parse_lead_data s = xs := by simp [parse_lead_data, hj]
  exact ⟨h, by rw [h]⟩

/-- Witness for C2 at the spec's own scenario input. -/
theorem parse_lead_data_json_seq_roundtrip_witness :
    parse_lead_data "[\x7b\"name\":\"A\"\x7d,\x7b\"name\":\"B\"\x7d]" =
      [PyVal.vDict [("name", PyVal.vStr "A")],
       PyVal.vDict [("name", PyVal.vStr "B")]] ∧
    (parse_lead_data "[\x7b\"name\":\"A\"\x7d,\x7b\"name\":\"B\"\x7d]").length = 2 :=
  ⟨(parse_lead_data_json_seq_roundtrip "[\x7b\"name\":\"A\"\x7d,\x7b\"name\":\"B\"\x7d]"
      [PyVal.vDict [("name", PyVal.vStr "A")], PyVal.vDict [("name", PyVal.vStr "B")]]
      rfl rfl).1,
   ((parse_lead_data_json_seq_roundtrip "[\x7b\"name\":\"A\"\x7d,\x7b\"name\":\"B\"\x7d]"
      [PyVal.vDict [("name", PyVal.vStr "A")], PyVal.vDict [("name", PyVal.vStr "B")]]
      rfl rfl).2).trans rfl⟩

/-- C3 (amended): for every input on which both the structured tier and
the delimited-table tier fail, `parse_lead_data` returns exactly one
`{'input': line}` record per non-empty trimmed line, in input order.
(The spec's concrete example "hello\nworld" does not satisfy the
premise — the delimited tier succeeds on it — see the counterexample.) -/
theorem parse_lead_data_line_fallback_records (s : String)
    (hj : jsonLoads s = none) (hc : read_csv s = none) :
    parse_lead_data s =
      (nonBlankLines s).map (fun l => PyVal.vDict [("input", PyVal.vStr l)]) ∧
    (parse_lead_data s).length = (nonBlankLines s).length := by
  have h : parse_lead_data s = lineFallback s := by simp [parse_lead_data, hj, hc]
  rw [lineFallback] at h
  exact ⟨h, by rw [h]; simp⟩

/-- Witness for C3: an input on which both earlier tiers genuinely fail
(the third row has more fields than the sniffed header). -/
theorem parse_lead_data_line_fallback_records_witness :
    jsonLoads "a b\nc d\ne f g" = none ∧ read_csv "a b\nc d\ne f g" = none ∧
    parse_lead_data "a b\nc d\ne f g" =
      [PyVal.vDict [("input", PyVal.vStr "a b")],
       PyVal.vDict [("input", PyVal.vStr "c d")],
       PyVal.vDict [("input", PyVal.vStr "e f g")]] ∧
    (parse_lead_data "a b\nc d\ne f g").length = 3 :=
  ⟨rfl, rfl,
   ((parse_lead_data_line_fallback_records "a b\nc d\ne f g" rfl rfl).1).trans rfl,
   ((parse_lead_data_line_fallback_records "a b\nc d\ne f g" rfl rfl).2).trans rfl⟩

/-- Counterexample to C3 as stated: on "hello\nworld" the delimited tier
does not fail — `csv.Sniffer` picks the delimiter `l` from the first
line, pandas reads one data row under a three-column header — so the
parser does not return the two claimed `{'input': ..}` records. -/
theorem parse_lead_data_hello_world_not_line_records :
    parse_lead_data "hello\nworld" ≠
      [PyVal.vDict [("input", PyVal.vStr "hello")],
       PyVal.vDict [("input", PyVal.vStr "world")]] := by
  intro h
  have h2 : parse_lead_data "hello\nworld" =
      [PyVal.vDict [("he", PyVal.vStr "wor"), ("Unnamed: 1", PyVal.vStr "d"),
                    ("o", PyVal.vNan)]] := rfl
  rw [h2] at h
  have hlen := congrArg List.length h
  simp at hlen

/-- C4 (amended): an empty or whitespace-only input yields the empty
lead collection, provided the delimited-table tier does not itself
produce records for it (which it can: see the counterexample " \n "). -/
theorem parse_lead_data_whitespace_empty (s : String)
    (hws : ∀ c ∈ s.data, isWsChar c)
    (hc : read_csv s = none ∨ ∃ hdr, read_csv s = some (hdr, [])) :
    parse_lead_data s = [] := by
  have hj : jsonLoads s = none := allWs_jsonLoads s hws
  rcases hc with hc | ⟨hdr, hc⟩
  · simp [parse_lead_data, hj, hc, allWs_lineFallback s hws]
  · simp [parse_lead_data, hj, hc]

/-- Witness for C4 at the empty input. -/
theorem parse_lead_data_whitespace_empty_witness :
    read_csv "" = none ∧ parse_lead_data "" = [] :=
  ⟨rfl, parse_lead_data_whitespace_empty ""
    (fun c hc => absurd hc (List.not_mem_nil c)) (Or.inl rfl)⟩

/-- Counterexample to C4 as stated: " \n " is whitespace-only, yet the
delimited tier sniffs the space delimiter, reads a one-row two-column
all-NaN table, and `parse_lead_data` returns one record, not `[]`. -/
theorem parse_lead_data_whitespace_not_empty :
    (∀ c ∈ (" \n " : String).data, isWsChar c) ∧
    parse_lead_data " \n " ≠ [] := by
  constructor
  · decide
  · intro h
    have h2 : parse_lead_data " \n " =
        [PyVal.vDict [("Unnamed: 0", PyVal.vNan), ("Unnamed: 1", PyVal.vNan)]] := rfl
    rw [h2] at h
    exact absurd h (List.cons_ne_nil _ _)

/-- C5: for every lead collection, the scoring prompt contains the
literal decimal record count, and contains the full pretty-printed
serialization of the collection between the `<Lead Data>` and
`</Lead Data>` markers — all records, never truncated or sampled,
whatever the collection's size. -/
theorem process_leads_embeds_count_and_all_records (leads_data : List PyVal) :
    containsSeg (process_leads leads_data) (toString leads_data.length) ∧
    containsSeg (process_leads leads_data)
      (leadDataOpen ++ jsonDumps leads_data ++ leadDataClose) ∧
    leadDataOpen = "<Lead Data>\n" ∧ leadDataClose = "\n</Lead Data>" := by
  refine ⟨⟨promptA1 ++ orderingSentence ++ promptA2 ++ scoreHeaderLine ++ promptA3,
      promptB1 ++ noCommentarySentence ++ promptB2 ++ leadDataOpen ++
        jsonDumps leads_data ++ leadDataClose ++ promptTail, ?_⟩,
    ⟨promptA1 ++ orderingSentence ++ promptA2 ++ scoreHeaderLine ++ promptA3 ++
        toString leads_data.length ++ promptB1 ++ noCommentarySentence ++ promptB2,
      promptTail, ?_⟩, rfl, rfl⟩
  · simp [process_leads, String.append_assoc]
  · simp [process_leads, String.append_assoc]

/-- C6: on any communication failure of the model gateway the call
returns the "no result" signal `None` — a value distinct from a valid
but empty string — never an unhandled fault, and the conversation
passed in comes back unchanged. -/
theorem get_openai_response_failure_yields_none (T : Transport)
    (messages : List ChatMessage) (api_key e : String)
    (h : T api_key messages = Except.error e) :
    get_openai_response T messages api_key = (none, messages) ∧
    (none : Option String) ≠ some "" := by
  refine ⟨?_, by simp⟩
  simp only [get_openai_response, h, extractContent]

/-- Witness for C6 with a concrete failing transport. -/
theorem get_openai_response_failure_yields_none_witness :
    get_openai_response (fun _ _ => Except.error "connection reset")
        [⟨"user", "hi"⟩] "sk-key" = (none, [⟨"user", "hi"⟩]) ∧
    (none : Option String) ≠ some "" :=
  get_openai_response_failure_yields_none
    (fun _ _ => Except.error "connection reset") [⟨"user", "hi"⟩]
    "sk-key" "connection reset" rfl

/-- C7: the email builder constructs a conversation of exactly two
messages — a system message carrying the configured prompt verbatim and
a user message that is the fixed instruction phrase followed by the
pretty-printed serialized lead collection — and calls the gateway on
exactly that conversation. -/
theorem generate_personalized_emails_conversation (leads_data : List PyVal)
    (email_system_prompt api_key : String) (T : Transport) :
    (emailMessages leads_data email_system_prompt).length = 2 ∧
    emailMessages leads_data email_system_prompt =
      [⟨"system", email_system_prompt⟩,
       ⟨"user", emailUserInstr ++ jsonDumps leads_data⟩] ∧
    emailUserInstr = "Generate personalized emails for:\n" ∧
    generate_personalized_emails T leads_data api_key email_system_prompt =
      extractContent (T api_key (emailMessages leads_data email_system_prompt)) :=
  ⟨rfl, rfl, rfl, rfl⟩

/-- C8: whenever the delimited-table tier parses an input, every
returned record has exactly as many fields as the processed header and
is keyed by the header names, in order. -/
theorem read_csv_record_width (s : String) (hdr : List String)
    (recs : List (List (String × PyVal)))
    (h : read_csv s = some (hdr, recs)) :
    ∀ r ∈ recs, r.length = hdr.length ∧ r.map Prod.fst = hdr := by
  rw [read_csv] at h
  split at h
  · exact absurd h (by simp)
  · split at h
    · exact absurd h (by simp)
    · dsimp only at h
      split at h
      · exact absurd h (by simp)
      · rw [Option.some_inj, Prod.mk.injEq] at h
        obtain ⟨h1, h2⟩ := h
        subst h1
        subst h2
        exact csvRecords_shape _ _ _

/-- Witness for C8 at the spec's scenario input. -/
theorem read_csv_record_width_witness :
    read_csv "name,age\nA,30\nB,40" =
      some (["name", "age"],
        [[("name", PyVal.vStr "A"), ("age", PyVal.vInt 30)],
         [("name", PyVal.vStr "B"), ("age", PyVal.vInt 40)]]) ∧
    ∀ r ∈ [[("name", PyVal.vStr "A"), ("age", PyVal.vInt 30)],
           [("name", PyVal.vStr "B"), ("age", PyVal.vInt 40)]],
      r.length = 2 ∧ r.map Prod.fst = ["name", "age"] :=
  ⟨rfl, fun r hr =>
    read_csv_record_width "name,age\nA,30\nB,40" ["name", "age"]
      [[("name", PyVal.vStr "A"), ("age", PyVal.vInt 30)],
       [("name", PyVal.vStr "B"), ("age", PyVal.vInt 40)]] rfl r hr⟩

/-- C9: for every lead collection the scoring prompt contains the fixed
seven-column table header (full name, preferred name, email, lead
score, reason, LinkedIn link, motivation), the descending-score
ordering instruction, and the no-extra-commentary instruction. -/
theorem process_leads_mandates_output_format (leads_data : List PyVal) :
    scoreTableColumns.length = 7 ∧
    scoreHeaderLine = "| " ++ String.intercalate " | " scoreTableColumns ++ " |" ∧
    containsSeg (process_leads leads_data) scoreHeaderLine ∧
    containsSeg (process_leads leads_data) orderingSentence ∧
    containsSeg (process_leads leads_data) noCommentarySentence ∧
    orderingSentence =
      "Ensure that the user with the highest lead score appears at the top of the table." ∧
    noCommentarySentence =
      "Your output should strictly adhere to the table format without any additional commentary or information." := by
  refine ⟨rfl, rfl,
    ⟨promptA1 ++ orderingSentence ++ promptA2,
     promptA3 ++ toString leads_data.length ++ promptB1 ++ noCommentarySentence ++
       promptB2 ++ leadDataOpen ++ jsonDumps leads_data ++ leadDataClose ++
       promptTail, ?_⟩,
    ⟨promptA1,
     promptA2 ++ scoreHeaderLine ++ promptA3 ++ toString leads_data.length ++
       promptB1 ++ noCommentarySentence ++ promptB2 ++ leadDataOpen ++
       jsonDumps leads_data ++ leadDataClose ++ promptTail, ?_⟩,
    ⟨promptA1 ++ orderingSentence ++ promptA2 ++ scoreHeaderLine ++ promptA3 ++
       toString leads_data.length ++ promptB1,
     promptB2 ++ leadDataOpen ++ jsonDumps leads_data ++ leadDataClose ++
       promptTail, ?_⟩, rfl, rfl⟩
  · simp [process_leads, String.append_assoc]
  · simp [process_leads, String.append_assoc]
  · simp [process_leads, String.append_assoc]

/-- C10: when the structured tier succeeds, any parsed value that is
not a list — scalars and strings included, not only mappings — is
wrapped in a one-element list, and a parsed list is returned unchanged
whatever its elements are. -/
theorem parse_lead_data_wraps_non_lists (s : String) (v : PyVal)
    (h : jsonLoads s = some v) :
    (∀ xs, v = PyVal.vList xs → parse_lead_data s = xs) ∧
    (isListB v = false → parse_lead_data s = [v]) := by
  constructor
  · rintro xs rfl
    simp [parse_lead_data, h]
  · intro hv
    cases v <;> simp_all [parse_lead_data, isListB]

/-- Witness for C10: the JSON input "42" yields the one-element
collection `[42]`, whose element is not a mapping. -/
theorem parse_lead_data_wraps_non_lists_witness :
    jsonLoads "42" = some (PyVal.vInt 42) ∧
    parse_lead_data "42" = [PyVal.vInt 42] ∧
    isDictB (PyVal.vInt 42) = false :=
  ⟨rfl, (parse_lead_data_wraps_non_lists "42" (PyVal.vInt 42) rfl).2 rfl, rfl⟩
